import Mathlib

/-!
Verification of the foodgram backend (`backend/api/`) against its
natural-language specification.  The Python source is shallowly embedded:
each relevant serializer / view method becomes a Lean function over an
explicit state, and the spec's claims become theorems about those
functions.

Conventions of the embedding:
* database rows are structures, tables are `List`s of rows;
* primary keys / foreign keys are `Nat`;
* Django querysets become list filters; `.exists()` becomes `List.any`;
* serializer validation that can fail becomes `Except`;
* HTTP responses become small inductive types carrying status and detail.
-/

namespace Foodgram

/-! ## Data model (backend/api/models.py)

Only the fields the verified operations touch are embedded. -/

/-- A row of the `Ingredient` catalog: `id`, `name`, `measurement_unit`. -/
structure Ingredient where
  id : Nat
  name : String
  measurement_unit : String
deriving DecidableEq, Repr

/-- A row of the `RecipeIngredient` association table:
`recipe` id, `ingredient` id, `amount`. -/
structure RecipeIngredientRow where
  recipe : Nat
  ingredient : Nat
  amount : Nat
deriving DecidableEq, Repr

/-- A validated item of `RecipeSerializer.ingredients`
(`IngredientInputSerializer`): key `id` is stored under source name
`ingredient`, together with `amount`. -/
structure IngredientInput where
  ingredient : Nat
  amount : Nat
deriving DecidableEq, Repr

/-- A row of the `ShoppingList` table: `user` id and `recipe` id. -/
structure ShoppingListRow where
  user : Nat
  recipe : Nat
deriving DecidableEq, Repr

/-! ## Recipe ingredient write path
(`RecipeSerializer._create_ingredients` / `_update_ingredients` /
`create` / `update`, backend/api/serializers.py lines 518-546) -/

/-- `_create_ingredients` body, first half: the Python code initialises
`ingredients_bulk = []` and never appends to it — the `ingredients_data`
parameter is unused in the source. -/
def ingredientsBulk (_recipe : Nat) (_ingredients_data : List IngredientInput) :
    List RecipeIngredientRow :=
  []

/-- `RecipeSerializer._create_ingredients(recipe, ingredients_data)`:
`RecipeIngredient.objects.bulk_create(ingredients_bulk)` appends the rows of
`ingredients_bulk` to the association table. -/
def createIngredientRelations (rows : List RecipeIngredientRow) (recipe : Nat)
    (ingredients_data : List IngredientInput) : List RecipeIngredientRow :=
  rows ++ ingredientsBulk recipe ingredients_data

/-- `RecipeSerializer._update_ingredients(recipe, ingredients_data)`:
`recipe.ingredients_amounts.all().delete()` removes every association row of
the recipe, then `_create_ingredients` is called. -/
def updateIngredientRelations (rows : List RecipeIngredientRow) (recipe : Nat)
    (ingredients_data : List IngredientInput) : List RecipeIngredientRow :=
  createIngredientRelations (rows.filter (fun r => r.recipe ≠ recipe)) recipe
    ingredients_data

/-- `recipe.ingredients_amounts.all()`: the association rows stored for one
recipe. -/
def storedAssociations (rows : List RecipeIngredientRow) (recipe : Nat) :
    List RecipeIngredientRow :=
  rows.filter (fun r => r.recipe = recipe)

/-- The association set the spec demands after a successful write with
ingredient list `L`: one row per `(ingredient_id, amount)` pair of `L`. -/
def specAssociations (recipe : Nat) (l : List IngredientInput) :
    List RecipeIngredientRow :=
  l.map (fun d => ⟨recipe, d.ingredient, d.amount⟩)

/-! ## Recipe write validation
(`RecipeSerializer.validate`, backend/api/serializers.py lines 471-516)

The validated `ingredients` items come from `IngredientInputSerializer`, so
each item always carries the `ingredient` key (the source's
`"ingredient" not in item` guard can only fire for well-formed items and is
subsumed by the typed embedding).  `initial_data["image"]` is embedded as an
`Option String`; Python truthiness makes both an absent key and an empty
string fail the image check. -/

/-- The distinct validation errors `RecipeSerializer.validate` can raise, in
source order. -/
inductive RecipeValidationError where
  /-- "Название рецепта обязательно." -/
  | nameRequired
  /-- "Список ингредиентов не может быть пустым!" -/
  | emptyIngredients
  /-- "Некоторые ингредиенты не найдены: {missing_ids}" — carries the set of
  offending ids. -/
  | missingIngredients (ids : Finset Nat)
  /-- "Ингредиенты должны быть уникальными!" -/
  | duplicateIngredients
  /-- "Поле 'image' обязательно при создании рецепта." -/
  | imageRequired
deriving DecidableEq

/-- `RecipeSerializer.validate(data)`.  `catalog` is the set of ids present
in the `Ingredient` table (`Ingredient.objects.filter(id__in=...)`), `name`
and `ingredients` are `data.get("name")` / `data.get("ingredients")`, and
`initialImage` is `self.initial_data.get("image")` (`none` when the key is
absent).  The function follows the source's check order exactly. -/
def recipeValidate (catalog : Finset Nat) (name : Option String)
    (ingredients : Option (List IngredientInput))
    (initialImage : Option String) : Except RecipeValidationError Unit :=
  match name with
  | none => .error .nameRequired
  | some _ =>
    -- `if not ingredients`: both an absent key and an empty list are falsy
    match ingredients with
    | none => .error .emptyIngredients
    | some ings =>
      if ings.isEmpty then .error .emptyIngredients
      else
        let ingredient_ids := ings.map (·.ingredient)
        let existing_ids := ingredient_ids.toFinset ∩ catalog
        let missing_ids := ingredient_ids.toFinset \ existing_ids
        if missing_ids ≠ ∅ then .error (.missingIngredients missing_ids)
        else if ingredient_ids.length ≠ ingredient_ids.toFinset.card then
          .error .duplicateIngredients
        else
          -- `if "image" not in self.initial_data or not
          --  self.initial_data.get("image")`
          match initialImage with
          | none => .error .imageRequired
          | some img =>
            if img = "" then .error .imageRequired else .ok ()

/-! ## Shopping-list download
(`RecipeViewSet.download_shopping_cart` and
`_ingredients_to_txt_response`, backend/api/views.py lines 540-564) -/

/-- The tables the shopping-list query touches: the `Ingredient` catalog,
the `RecipeIngredient` association table and the `ShoppingList` table. -/
structure ShopDb where
  ingredients : List Ingredient
  recipeIngredients : List RecipeIngredientRow
  shoppingLists : List ShoppingListRow

/-- The join `values("ingredient__name", "ingredient__measurement_unit")`
follows the foreign key from an association row to its catalog row.  The
database's referential integrity makes the `none` branch unreachable; the
default pair only keeps the function total. -/
def ingredientField (db : ShopDb) (iid : Nat) : String × String :=
  match db.ingredients.find? (fun ing => ing.id = iid) with
  | some ing => (ing.name, ing.measurement_unit)
  | none => ("", "")

/-- `RecipeIngredient.objects.filter(recipe__in_shopping_carts__user=user)`:
the association rows of every recipe in the user's shopping cart. -/
def cartRows (db : ShopDb) (u : Nat) : List RecipeIngredientRow :=
  db.recipeIngredients.filter (fun ri =>
    db.shoppingLists.any (fun sl => sl.user == u && sl.recipe == ri.recipe))

/-- The joined rows as `(key, amount)` pairs with
`key = (ingredient__name, ingredient__measurement_unit)`. -/
def keyedAmounts (db : ShopDb) (u : Nat) : List ((String × String) × Nat) :=
  (cartRows db u).map (fun ri => (ingredientField db ri.ingredient, ri.amount))

/-- The distinct grouping keys of a keyed row list, in first-occurrence
order — the `GROUP BY` key list produced by `.values(...).annotate(...)`. -/
def groupKeys : List ((String × String) × Nat) → List (String × String)
  | [] => []
  | (k, _) :: t => k :: groupKeys (t.filter (fun p => p.1 ≠ k))
termination_by l => l.length
decreasing_by
  simpa using Nat.lt_succ_of_le (List.length_filter_le _ t)

/-- `Sum("amount")` within one group. -/
def sumForKey (k : String × String) (l : List ((String × String) × Nat)) :
    Nat :=
  ((l.filter (fun p => p.1 = k)).map (fun p => p.2)).sum

/-- The annotated queryset of `download_shopping_cart`: one
`(key, total_amount)` entry per distinct `(name, measurement_unit)` key,
where `total_amount` sums the amounts of the group. -/
def shoppingAggregate (db : ShopDb) (u : Nat) :
    List ((String × String) × Nat) :=
  (groupKeys (keyedAmounts db u)).map
    (fun k => (k, sumForKey k (keyedAmounts db u)))

/-- One line of `_ingredients_to_txt_response`:
`f"{ingredient__name}-{total_amount}({ingredient__measurement_unit})"`. -/
def renderLine (e : (String × String) × Nat) : String :=
  e.1.1 ++ "-" ++ toString e.2 ++ "(" ++ e.1.2 ++ ")"

/-- The downloaded document: `"\n".join(...)` over the rendered lines. -/
def downloadShoppingCart (db : ShopDb) (u : Nat) : String :=
  String.intercalate "\n" ((shoppingAggregate db u).map renderLine)

/-! ## Relation toggle: favorite / shopping-cart membership
(`FavoriteCreateSerializer`, `ShoppingListCreateSerializer`,
backend/api/serializers.py lines 557-600;
`RecipeViewSet._add_recipe_to_relation` / `_remove_recipe_from_relation`,
backend/api/views.py lines 448-531) -/

/-- The fields of a `Recipe` row that the relation endpoints read. -/
structure RecipeRow where
  id : Nat
  name : String
  image : Option String
  cooking_time : Nat
deriving DecidableEq, Repr

/-- The short recipe summary returned by `FavoriteResponseSerializer`:
fields `id`, `name`, `image`, `cooking_time`. -/
structure RecipeSummary where
  id : Nat
  name : String
  image : Option String
  cooking_time : Nat
deriving DecidableEq, Repr

/-- Responses of the relation-add endpoints (`favorite`, `shopping_cart`). -/
inductive AddRelationResponse where
  /-- `get_object_or_404(Recipe, pk=pk)` failed. -/
  | notFound404
  /-- serializer `ValidationError`, status 400. -/
  | badRequest400 (detail : String)
  /-- inserted; status 201 with the short recipe summary. -/
  | created201 (summary : RecipeSummary)
deriving DecidableEq, Repr

/-- Responses of the relation-remove endpoints. -/
inductive RemoveRelationResponse where
  /-- the membership row does not exist; status 404 with a detail. -/
  | notFound404 (detail : String)
  /-- deleted; status 204 and no body. -/
  | noContent204
deriving DecidableEq, Repr

/-- The `favorite` / `shopping_cart` POST actions: `get_object_or_404`
on the recipe, then the create serializer's `validate` (400 when the
`(user, recipe)` pair is already a member), then `get_or_create` inserts
the row and the view answers 201 with the short summary.  `relation` is the
user-recipe pair table (`Favorite` or `ShoppingList`), `alreadyDetail` the
serializer's duplicate-membership message. -/
def addRecipeToRelation (recipes : List RecipeRow)
    (relation : List (Nat × Nat)) (alreadyDetail : String) (u pk : Nat) :
    List (Nat × Nat) × AddRelationResponse :=
  match recipes.find? (fun r => r.id = pk) with
  | none => (relation, .notFound404)
  | some r =>
    if relation.any (fun p => p.1 == u && p.2 == pk) then
      (relation, .badRequest400 alreadyDetail)
    else
      (relation ++ [(u, pk)],
        .created201 ⟨r.id, r.name, r.image, r.cooking_time⟩)

/-- The `favorite` / `shopping_cart` DELETE actions
(`_remove_recipe_from_relation`): `relation_queryset.get(recipe__id=pk)`
raises `DoesNotExist` → 404 with `does_not_exist_message`; otherwise the
row is deleted and the view answers 204 with no body.  The `(user, recipe)`
uniqueness constraint makes the single fetched row the only match, so the
deletion is embedded as a filter. -/
def removeRecipeFromRelation (relation : List (Nat × Nat))
    (doesNotExistDetail : String) (u pk : Nat) :
    List (Nat × Nat) × RemoveRelationResponse :=
  if relation.any (fun p => p.1 == u && p.2 == pk) then
    (relation.filter (fun p => !(p.1 == u && p.2 == pk)), .noContent204)
  else
    (relation, .notFound404 doesNotExistDetail)

/-! ## Subscription management
(`CreateSubscriptionSerializer.validate`, backend/api/serializers.py lines
154-162; `UserViewSet.subscribe`, backend/api/views.py lines 220-246) -/

/-- The tables the subscribe endpoint touches: user primary keys and the
`Subscription` edge table, each edge an `(author, subscriber)` pair. -/
structure SubDb where
  userIds : List Nat
  subscriptions : List (Nat × Nat)
deriving DecidableEq, Repr

/-- Responses of the subscribe endpoint. -/
inductive SubscribeResponse where
  /-- `get_object_or_404(User, pk=pk)` failed. -/
  | notFound404
  /-- status 400 with a detail message. -/
  | badRequest400 (detail : String)
  /-- subscription created; status 201 with the author's profile. -/
  | created201 (authorId : Nat)
  /-- subscription deleted; status 204 and no body. -/
  | noContent204
deriving DecidableEq, Repr

/-- `UserViewSet.subscribe`, POST branch: resolve the author or 404; if
`user.subscriptions.filter(author=author).exists()` answer 400 "Вы уже
подписаны."; then `CreateSubscriptionSerializer.validate` rejects
`user == author` with "Вы не можете подписаться на себя!" (its own
duplicate check can no longer fire); otherwise the edge is created and the
author's profile returned with 201. -/
def subscribePost (db : SubDb) (u pk : Nat) : SubDb × SubscribeResponse :=
  if pk ∈ db.userIds then
    if db.subscriptions.any (fun e => e.1 == pk && e.2 == u) then
      (db, .badRequest400 "Вы уже подписаны.")
    else if u = pk then
      (db, .badRequest400 "Вы не можете подписаться на себя!")
    else
      ({ db with subscriptions := db.subscriptions ++ [(pk, u)] },
        .created201 pk)
  else (db, .notFound404)

/-- `UserViewSet.subscribe`, DELETE branch: resolve the author or 404; if
no edge exists answer 400 "Вы не подписаны."; otherwise
`subscription.delete()` removes the matching edge and the view answers
204. -/
def subscribeDelete (db : SubDb) (u pk : Nat) : SubDb × SubscribeResponse :=
  if pk ∈ db.userIds then
    if db.subscriptions.any (fun e => e.1 == pk && e.2 == u) then
      ({ db with subscriptions :=
          db.subscriptions.filter (fun e => !(e.1 == pk && e.2 == u)) },
        .noContent204)
    else (db, .badRequest400 "Вы не подписаны.")
  else (db, .notFound404)

/-! ## Token login
(`ObtainAuthTokenView.post`, backend/api/views.py lines 57-93) -/

/-- A user row as the login endpoint sees it.  `password` stands for the
stored credential; `check_password` becomes comparison with it. -/
structure AuthUser where
  id : Nat
  username : String
  email : String
  password : String
  is_active : Bool
deriving DecidableEq, Repr

/-- `user.check_password(raw)`: verification of the raw password against
the stored credential. -/
def checkPassword (u : AuthUser) (raw : String) : Bool :=
  u.password == raw

/-- Django's `authenticate(request, username=..., password=...)` with the
default model backend: fetch the user by its (unique) username, verify the
password, and require `is_active` (`user_can_authenticate`). -/
def authenticateUser (users : List AuthUser) (username password : String) :
    Option AuthUser :=
  match users.find? (fun v => v.username = username) with
  | some v => if checkPassword v password && v.is_active then some v else none
  | none => none

/-- `request.data.get(key)` is `none` when the key is absent; Python
truthiness (`if not email`) makes `none` and the empty string falsy. -/
def isBlank : Option String → Bool
  | none => true
  | some s => s == ""

/-- Responses of `ObtainAuthTokenView.post`. -/
inductive LoginResponse where
  /-- status 400 with a detail message. -/
  | badRequest400 (detail : String)
  /-- status 200 with `{"auth_token": ...}` for the authenticated user. -/
  | ok200Token (userId : Nat)
  /-- an uncaught `MultipleObjectsReturned` from `User.objects.get`
  (only reachable when several users share the email). -/
  | serverError500
deriving DecidableEq, Repr

/-- `ObtainAuthTokenView.post`: missing email → 400, missing password →
400, `User.objects.get(email=email)` failing with `DoesNotExist` → 400
"Неверный email или пароль.", failed `authenticate` (wrong password or
inactive user) → the same 400 detail, success → the token response. -/
def obtainAuthToken (users : List AuthUser) (email password : Option String) :
    LoginResponse :=
  if isBlank email then .badRequest400 "Пожалуйста, введите email."
  else if isBlank password then .badRequest400 "Пожалуйста, введите пароль."
  else
    match users.filter (fun v => v.email = email.getD "") with
    | [] => .badRequest400 "Неверный email или пароль."
    | [uo] =>
      match authenticateUser users uo.username (password.getD "") with
      | none => .badRequest400 "Неверный email или пароль."
      | some v => .ok200Token v.id
    | _ => .serverError500

/-! ## Avatar deletion
(`UserViewSet.avatar`, DELETE branch, backend/api/views.py lines 168-189) -/

/-- The avatar-related state of a user row: primary key and the `avatar`
image field (`none` embeds a Python-falsy field: null or empty). -/
structure AvatarUser where
  id : Nat
  avatar : Option String
deriving DecidableEq, Repr

/-- Responses of the avatar DELETE action. -/
inductive AvatarDeleteResponse where
  /-- "Недостаточно прав.", status 403. -/
  | forbidden403 (detail : String)
  /-- status 204 (the view also attaches a detail body). -/
  | noContent204 (detail : String)
deriving DecidableEq, Repr

/-- `UserViewSet.avatar` with `request.method == "DELETE"`: a caller that is
not the target user gets 403; otherwise `if user.avatar:
user.avatar.delete(save=True)` clears the field when set, and the view
answers 204 unconditionally. -/
def avatarDelete (requestUser target : AvatarUser) :
    AvatarUser × AvatarDeleteResponse :=
  if requestUser.id ≠ target.id then
    (target, .forbidden403 "Недостаточно прав.")
  else
    (if target.avatar.isSome then { target with avatar := none } else target,
      .noContent204 "Аватар удалён.")

/-! ## Registration email-similarity guard
(`UserRegistrationSerializer.validate_email`, backend/api/serializers.py
lines 219-229)

The guard calls `difflib.SequenceMatcher(None, a, b).ratio()` from the
Python standard library, embedded below over `List Char`:
* `isjunk=None`, so the junk set `bjunk` is empty and `isbjunk` is
  constantly false;
* the autojunk heuristic drops "popular" elements from `b2j` when `b` has
  at least 200 elements;
* `find_longest_match` is the dynamic-programming scan plus its extension
  loops (the two final loops extend over junk elements and can never fire);
* `ratio` is `2 * M / (len a + len b)` with `M` the total size of the
  matching blocks, computed exactly in `ℚ` — at these magnitudes the
  source's double-precision arithmetic agrees with the exact value. -/

/-- The "popular" elements dropped from `b2j` by autojunk: only when
`len(b) >= 200`, the elements occurring more than `n // 100 + 1` times. -/
def bPopular (b : List Char) : List Char :=
  if b.length < 200 then []
  else b.filter (fun c => b.count c > b.length / 100 + 1)

/-- `self.b2j` after `__chain_b`: the increasing list of indices of each
element of `b`, with popular elements removed. -/
def b2j (b : List Char) (c : Char) : List Nat :=
  if c ∈ bPopular b then []
  else (List.range b.length).filter (fun j => b.get? j = some c)

/-- `j2len.get(j, 0)` over the association-list embedding of the dict. -/
def j2lenGet (l : List (Nat × Nat)) (j : Nat) : Nat :=
  match l.find? (fun p => p.1 = j) with
  | some p => p.2
  | none => 0

/-- The inner loop of `find_longest_match` for one index `i` of `a`: walk
the increasing index list `b2j[a[i]]`, skipping `j < blo` and dropping
`j >= bhi` (the `break` is equivalent to skipping the rest of an increasing
list), build `newj2len` from the old `j2len`, and improve the best block on
strictly larger `k`.  `i + 1 - k` and `j + 1 - k` are the source's
`i-k+1` / `j-k+1`; `k` never exceeds `i + 1` or `j + 1`, so the `Nat`
subtraction is exact. -/
def innerLoop (i : Nat) (blo bhi : Nat) (js : List Nat)
    (j2len : List (Nat × Nat)) (best : Nat × Nat × Nat) :
    List (Nat × Nat) × (Nat × Nat × Nat) :=
  js.foldl
    (fun acc j =>
      if j < blo ∨ bhi ≤ j then acc
      else
        let k := (if j = 0 then 0 else j2lenGet j2len (j - 1)) + 1
        let newj2len := acc.1 ++ [(j, k)]
        if k > acc.2.2.2 then (newj2len, (i + 1 - k, j + 1 - k, k))
        else (newj2len, acc.2))
    ([], best)

/-- The dynamic-programming scan of `find_longest_match` over
`i in range(alo, ahi)`, starting from `besti, bestj, bestsize = alo, blo, 0`
and an empty `j2len`.  The `none` branch is unreachable: every visited `i`
satisfies `i < ahi ≤ len(a)`. -/
def flmLoop (a b : List Char) (alo ahi blo bhi : Nat) : Nat × Nat × Nat :=
  ((List.range' alo (ahi - alo)).foldl
    (fun (st : List (Nat × Nat) × (Nat × Nat × Nat)) i =>
      match a.get? i with
      | some c => innerLoop i blo bhi (b2j b c) st.1 st.2
      | none => st)
    ([], (alo, blo, 0))).2

/-- `a[i] == b[j]` through total indexing; at every use both indices are in
range, so the catch-all branch is unreachable. -/
def charsEq (a b : List Char) (i j : Nat) : Bool :=
  match a.get? i, b.get? j with
  | some x, some y => x == y
  | _, _ => false

/-- First extension loop of `find_longest_match`: extend the block to the
left while the adjacent elements are equal and non-junk — the junk set is
empty, so only the bounds and the element test remain.  Each pass decreases
`besti` by one and requires `alo < besti`, so the initial `besti` bounds the
number of passes: starting the fuel there reproduces the loop exactly. -/
def extendLeftAux (a b : List Char) (alo blo : Nat) :
    Nat → Nat → Nat → Nat → Nat × Nat × Nat
  | 0, besti, bestj, bestsize => (besti, bestj, bestsize)
  | fuel + 1, besti, bestj, bestsize =>
    if alo < besti ∧ blo < bestj ∧
        charsEq a b (besti - 1) (bestj - 1) then
      extendLeftAux a b alo blo fuel (besti - 1) (bestj - 1) (bestsize + 1)
    else (besti, bestj, bestsize)

/-- The left-extension loop at its natural fuel. -/
def extendLeft (a b : List Char) (alo blo besti bestj bestsize : Nat) :
    Nat × Nat × Nat :=
  extendLeftAux a b alo blo besti besti bestj bestsize

/-- Second extension loop of `find_longest_match`: extend the block to the
right while within bounds and the elements are equal (again junk-free).
Each pass increases `besti + bestsize`, which stays below `ahi`, so `ahi`
passes of fuel reproduce the loop exactly. -/
def extendRightAux (a b : List Char) (ahi bhi besti bestj : Nat) :
    Nat → Nat → Nat
  | 0, bestsize => bestsize
  | fuel + 1, bestsize =>
    if besti + bestsize < ahi ∧ bestj + bestsize < bhi ∧
        charsEq a b (besti + bestsize) (bestj + bestsize) then
      extendRightAux a b ahi bhi besti bestj fuel (bestsize + 1)
    else bestsize

/-- The right-extension loop at its natural fuel. -/
def extendRight (a b : List Char) (ahi bhi besti bestj bestsize : Nat) :
    Nat :=
  extendRightAux a b ahi bhi besti bestj ahi bestsize

/-- `SequenceMatcher.find_longest_match(alo, ahi, blo, bhi)` with
`isjunk=None`: the scan, then the junk-free extension loops; the final two
loops of the source extend over junk elements and cannot fire. -/
def findLongestMatch (a b : List Char) (alo ahi blo bhi : Nat) :
    Nat × Nat × Nat :=
  let st := flmLoop a b alo ahi blo bhi
  let l := extendLeft a b alo blo st.1 st.2.1 st.2.2
  let size := extendRight a b ahi bhi l.1 l.2.1 l.2.2
  (l.1, l.2.1, size)

/-- The total size `M` of the blocks of `get_matching_blocks` on an
interval: a non-empty longest match contributes its size and splits the
interval strictly, exactly as the source's queue does (the queue order does
not affect the sum).  Each recursive call shrinks
`(ahi - alo) + (bhi - blo)` by at least one, so the `fuel` chosen at the
call site (`len(a) + len(b) + 1`) never runs out. -/
def matchTotal (a b : List Char) : Nat → Nat → Nat → Nat → Nat → Nat
  | 0, _, _, _, _ => 0
  | fuel + 1, alo, ahi, blo, bhi =>
    let m := findLongestMatch a b alo ahi blo bhi
    if m.2.2 = 0 then 0
    else m.2.2 +
      (if alo < m.1 ∧ blo < m.2.1 then
        matchTotal a b fuel alo m.1 blo m.2.1 else 0) +
      (if m.1 + m.2.2 < ahi ∧ m.2.1 + m.2.2 < bhi then
        matchTotal a b fuel (m.1 + m.2.2) ahi (m.2.1 + m.2.2) bhi else 0)

/-- `difflib.SequenceMatcher(None, a, b).ratio() = 2.0 * M / T` with
`T = len(a) + len(b)`, and `1.0` when `T = 0`. -/
def ratio (a b : String) : ℚ :=
  let la := a.data.length
  let lb := b.data.length
  let m := matchTotal a.data b.data (la + lb + 1) 0 la 0 lb
  if la + lb = 0 then 1 else (2 * m : ℚ) / (la + lb)

/-- Python's `str.lower` on one character of the ASCII emails at hand:
map `A`–`Z` (codes 65–90) to the corresponding lowercase letter. -/
def charLower (c : Char) : Char :=
  if 65 ≤ c.toNat ∧ c.toNat ≤ 90 then Char.ofNat (c.toNat + 32) else c

/-- Python's `str.lower` over the string. -/
def strLower (s : String) : String :=
  ⟨s.data.map charLower⟩

/-- `UserRegistrationSerializer.validate_email`: lower the candidate
(`value.lower()`), scan every existing user, and raise the validation error
as soon as `SequenceMatcher(None, email_lower, user.email.lower()).ratio()`
reaches 0.8; otherwise return the value unchanged. -/
def validateEmail (existingEmails : List String) (value : String) :
    Except String String :=
  if existingEmails.any
      (fun e => ratio (strLower value) (strLower e) ≥ (8 : ℚ) / 10) then
    .error "Пользователь с похожей почтой уже зарегистрирован."
  else .ok value

end Foodgram

/-! ## Helper lemmas -/

/-- `queryset.filter(..).exists()` over a pair table: the `List.any` test
succeeds exactly when the pair is a member. -/
theorem any_pair_eq (l : List (Nat × Nat)) (x y : Nat) :
    (l.any (fun p => p.1 == x && p.2 == y) = true) ↔ (x, y) ∈ l := by
  rw [List.any_eq_true]
  constructor
  · rintro ⟨⟨a, b⟩, hp, hcond⟩
    rw [Bool.and_eq_true, beq_iff_eq, beq_iff_eq] at hcond
    obtain ⟨rfl, rfl⟩ := hcond
    exact hp
  · intro h
    exact ⟨(x, y), h, by simp⟩

/-- A key is a group key of a keyed row list exactly when some row carries
it. -/
theorem mem_groupKeys (k : String × String) :
    ∀ l : List ((String × String) × Nat),
      k ∈ Foodgram.groupKeys l ↔ k ∈ l.map Prod.fst
  | [] => by simp [Foodgram.groupKeys]
  | (k', a) :: t => by
    rw [Foodgram.groupKeys]
    by_cases hk : k = k'
    · subst hk; simp
    · have ih := mem_groupKeys k (t.filter (fun p => p.1 ≠ k'))
      simp only [List.mem_cons, List.map_cons, ih, List.mem_map,
        List.mem_filter, decide_eq_true_eq]
      constructor
      · rintro (rfl | ⟨p, ⟨hp, _⟩, rfl⟩)
        · exact absurd rfl hk
        · exact .inr ⟨p, hp, rfl⟩
      · rintro (rfl | ⟨p, hp, rfl⟩)
        · exact absurd rfl hk
        · exact .inr ⟨p, ⟨hp, hk⟩, rfl⟩
termination_by l => l.length
decreasing_by
  simpa using Nat.lt_succ_of_le (List.length_filter_le _ t)

/-! ### Theorems for C1 and C3 -/

/-- C1: the claim says a successful create stores one association per pair of
the submitted list `L`.  Evaluating the embedded code at the failing input
`L = [(ingredient 2, amount 5)]` on a fresh recipe 1: the stored association
set comes out empty, while the spec demands the one-row set —
`_create_ingredients` bulk-creates an empty list and never inserts anything. -/
theorem C1_create_stores_no_associations :
    Foodgram.storedAssociations
        (Foodgram.createIngredientRelations [] 1 [⟨2, 5⟩]) 1 = [] ∧
    Foodgram.specAssociations 1 [⟨2, 5⟩] = [⟨1, 2, 5⟩] ∧
    ([] : List Foodgram.RecipeIngredientRow) ≠ [⟨1, 2, 5⟩] := by
  refine ⟨rfl, rfl, ?_⟩
  decide

/-- C3: the claim says replacing the stored ingredient set `A` by the same
list `A` leaves the stored content unchanged.  Evaluating the embedded code
with stored set `A = {(recipe 1, ingredient 2, amount 5)}` and update list
`[(2, 5)]`: the update deletes the prior row and inserts nothing, leaving the
empty set instead of `A`. -/
theorem C3_update_with_same_set_empties_it :
    Foodgram.storedAssociations
        (Foodgram.updateIngredientRelations [⟨1, 2, 5⟩] 1 [⟨2, 5⟩]) 1 = [] ∧
    ([] : List Foodgram.RecipeIngredientRow) ≠ [⟨1, 2, 5⟩] := by
  refine ⟨rfl, ?_⟩
  decide

/-! ### Theorem for C2 -/

/-- C2: the shopping-list download aggregates the association rows of the
user's cart recipes: an entry `(key, s)` with
`key = (ingredient name, measurement unit)` appears in the aggregate exactly
when some cart row carries that key and `s` is the sum of the amounts of
the cart rows with that key; the document renders each entry as the line
`name-amount(unit)` joined by newlines; and an empty cart yields the empty
document rather than an error. -/
theorem C2_shopping_list_download (db : Foodgram.ShopDb) (u : Nat) :
    (∀ k s, (k, s) ∈ Foodgram.shoppingAggregate db u ↔
      (k ∈ (Foodgram.keyedAmounts db u).map Prod.fst ∧
        s = Foodgram.sumForKey k (Foodgram.keyedAmounts db u))) ∧
    Foodgram.downloadShoppingCart db u =
      String.intercalate "\n"
        ((Foodgram.shoppingAggregate db u).map Foodgram.renderLine) ∧
    (db.shoppingLists.filter (fun sl => sl.user == u) = [] →
      Foodgram.downloadShoppingCart db u = "") := by
  refine ⟨?_, rfl, ?_⟩
  · intro k s
    constructor
    · intro h
      rcases List.mem_map.mp h with ⟨k', hk', heq⟩
      have heq' : k' = k ∧
          Foodgram.sumForKey k' (Foodgram.keyedAmounts db u) = s := by
        simpa [Prod.ext_iff] using heq
      obtain ⟨rfl, rfl⟩ := heq'
      exact ⟨(mem_groupKeys k' _).mp hk', rfl⟩
    · rintro ⟨hmem, rfl⟩
      exact List.mem_map.mpr
        ⟨k, (mem_groupKeys k _).mpr hmem, rfl⟩
  · intro h
    have hsl : ∀ sl ∈ db.shoppingLists, ¬ ((sl.user == u) = true) :=
      List.filter_eq_nil_iff.mp h
    have hcart : Foodgram.cartRows db u = [] := by
      apply List.filter_eq_nil_iff.mpr
      intro ri _ hany
      rcases List.any_eq_true.mp hany with ⟨sl, hsl', hcond⟩
      rw [Bool.and_eq_true] at hcond
      exact hsl sl hsl' hcond.1
    simp [Foodgram.downloadShoppingCart, Foodgram.shoppingAggregate,
      Foodgram.keyedAmounts, hcart, Foodgram.groupKeys, String.intercalate]

/-- Witness for C2 on the spec's worked example: user 7's cart holds recipe
1 (flour 200 g, egg 2 pcs) and recipe 2 (flour 100 g); the aggregate
contains the flour group with total 300; and user 9, whose cart is empty,
downloads an empty document. -/
theorem C2_shopping_list_download_witness :
    ((("flour", "g"), 300) ∈
      Foodgram.shoppingAggregate
        ⟨[⟨1, "flour", "g"⟩, ⟨2, "egg", "pcs"⟩],
         [⟨1, 1, 200⟩, ⟨1, 2, 2⟩, ⟨2, 1, 100⟩],
         [⟨7, 1⟩, ⟨7, 2⟩]⟩ 7) ∧
    Foodgram.downloadShoppingCart
        ⟨[⟨1, "flour", "g"⟩, ⟨2, "egg", "pcs"⟩],
         [⟨1, 1, 200⟩, ⟨1, 2, 2⟩, ⟨2, 1, 100⟩],
         [⟨7, 1⟩, ⟨7, 2⟩]⟩ 9 = "" := by
  constructor
  · exact ((C2_shopping_list_download _ 7).1 ("flour", "g") 300).mpr
      (by constructor <;> decide)
  · exact (C2_shopping_list_download _ 9).2.2 (by decide)

/-! ### Theorem for C4 -/

/-- C4: the claim says an update request may omit the image and still
succeed.  Evaluating the embedded `validate` at the failing input — an
otherwise valid update payload (name present, one existing non-duplicate
ingredient) whose `initial_data` has no `image` key — the code rejects it
with the image-required error: the check never branches on create versus
update, contradicting its own error text "обязательно при создании рецепта"
(required when *creating*).  The create half of the claim (image absent or
empty on create fails) evaluates identically. -/
theorem C4_update_without_image_is_rejected :
    Foodgram.recipeValidate {2} (some "soup") (some [⟨2, 5⟩]) none =
      .error .imageRequired ∧
    Foodgram.recipeValidate {2} (some "soup") (some [⟨2, 5⟩]) (some "") =
      .error .imageRequired := by
  constructor <;> rfl

/-! ### Theorem for C6 -/

/-- C6: recipe-write validation of the ingredient list, with a name present:
an absent or empty list fails with the empty-list error; if some submitted
id is missing from the catalog, validation fails with the missing-ingredients
error carrying exactly the submitted ids that are not in the catalog; if all
ids exist but are not pairwise distinct, it fails with the
duplicate-ingredients error; and a list that is non-empty, all-existing and
duplicate-free is never rejected on those three grounds (only the later
image check can still fail). -/
theorem C6_ingredient_list_validation (catalog : Finset Nat) (nm : String)
    (ings : List Foodgram.IngredientInput) (img : Option String) :
    (Foodgram.recipeValidate catalog (some nm) none img =
        .error .emptyIngredients) ∧
    (ings = [] → Foodgram.recipeValidate catalog (some nm) (some ings) img =
        .error .emptyIngredients) ∧
    ((∃ i ∈ ings, i.ingredient ∉ catalog) →
      Foodgram.recipeValidate catalog (some nm) (some ings) img =
        .error (.missingIngredients
          ((ings.map (·.ingredient)).toFinset \ catalog)) ∧
      ∀ x, x ∈ (ings.map (·.ingredient)).toFinset \ catalog ↔
        (x ∈ ings.map (·.ingredient) ∧ x ∉ catalog)) ∧
    (ings ≠ [] → (∀ i ∈ ings, i.ingredient ∈ catalog) →
      ¬ (ings.map (·.ingredient)).Nodup →
      Foodgram.recipeValidate catalog (some nm) (some ings) img =
        .error .duplicateIngredients) ∧
    (ings ≠ [] → (∀ i ∈ ings, i.ingredient ∈ catalog) →
      (ings.map (·.ingredient)).Nodup →
      Foodgram.recipeValidate catalog (some nm) (some ings) img = .ok () ∨
      Foodgram.recipeValidate catalog (some nm) (some ings) img =
        .error .imageRequired) := by
  have hsd : (ings.map (·.ingredient)).toFinset \
      ((ings.map (·.ingredient)).toFinset ∩ catalog) =
      (ings.map (·.ingredient)).toFinset \ catalog :=
    Finset.sdiff_inter_self_left _ _
  refine ⟨rfl, ?_, ?_, ?_, ?_⟩
  · rintro rfl; rfl
  · rintro ⟨i, hi, hic⟩
    have hne : ings ≠ [] := by rintro rfl; exact absurd hi (List.not_mem_nil i)
    have hemp : ings.isEmpty = false := by
      simpa [List.isEmpty_iff] using hne
    have hmiss : (ings.map (·.ingredient)).toFinset \ catalog ≠ ∅ := by
      intro h
      have : i.ingredient ∈ (ings.map (·.ingredient)).toFinset \ catalog := by
        simp only [Finset.mem_sdiff, List.mem_toFinset, List.mem_map]
        exact ⟨⟨i, hi, rfl⟩, hic⟩
      rw [h] at this
      exact absurd this (Finset.not_mem_empty _)
    constructor
    · simp only [Foodgram.recipeValidate, hemp, Bool.false_eq_true,
        if_false, hsd, hmiss, if_true, ne_eq, not_false_iff]
    · intro x
      simp [Finset.mem_sdiff]
  · intro hne hall hdup
    have hemp : ings.isEmpty = false := by
      simpa [List.isEmpty_iff] using hne
    have hmiss : (ings.map (·.ingredient)).toFinset \ catalog = ∅ := by
      rw [Finset.sdiff_eq_empty_iff_subset]
      intro x hx
      rcases List.mem_map.mp (List.mem_toFinset.mp hx) with ⟨i, hi, rfl⟩
      exact hall i hi
    have hlen : (ings.map (·.ingredient)).length ≠
        (ings.map (·.ingredient)).toFinset.card := by
      intro h
      apply hdup
      rw [List.card_toFinset] at h
      have hsub := List.dedup_sublist (ings.map (·.ingredient))
      have := hsub.eq_of_length h.symm
      rw [← List.dedup_eq_self]
      exact this
    simp only [Foodgram.recipeValidate, hemp, Bool.false_eq_true, if_false,
      hsd, hmiss, ne_eq, not_true_eq_false, if_false, hlen, not_false_iff,
      if_true]
  · intro hne hall hdup
    have hemp : ings.isEmpty = false := by
      simpa [List.isEmpty_iff] using hne
    have hmiss : (ings.map (·.ingredient)).toFinset \ catalog = ∅ := by
      rw [Finset.sdiff_eq_empty_iff_subset]
      intro x hx
      rcases List.mem_map.mp (List.mem_toFinset.mp hx) with ⟨i, hi, rfl⟩
      exact hall i hi
    have hlen : (ings.map (·.ingredient)).length =
        (ings.map (·.ingredient)).toFinset.card := by
      rw [List.card_toFinset, List.dedup_eq_self.mpr hdup]
    simp only [Foodgram.recipeValidate, hemp, Bool.false_eq_true, if_false,
      hsd, hmiss, ne_eq, not_true_eq_false, if_false, hlen,
      not_false_iff, if_true]
    cases img with
    | none => right; rfl
    | some s =>
      by_cases hs : s = "" <;> simp [hs]

/-- Witness for C6 at concrete inputs: catalog `{1, 2}`; the list
`[(3, 5)]` fails with the missing-ingredients error naming `{3}`, and the
list `[(1, 2), (1, 3)]` (all ids exist, id 1 repeated) fails with the
duplicate-ingredients error. -/
theorem C6_ingredient_list_validation_witness :
    Foodgram.recipeValidate {1, 2} (some "soup") (some [⟨3, 5⟩])
        (some "img") = .error (.missingIngredients ({3} \ {1, 2})) ∧
    Foodgram.recipeValidate {1, 2} (some "soup") (some [⟨1, 2⟩, ⟨1, 3⟩])
        (some "img") = .error .duplicateIngredients := by
  constructor
  · exact ((C6_ingredient_list_validation {1, 2} "soup" [⟨3, 5⟩]
      (some "img")).2.2.1 ⟨⟨3, 5⟩, by decide, by decide⟩).1
  · exact (C6_ingredient_list_validation {1, 2} "soup" [⟨1, 2⟩, ⟨1, 3⟩]
      (some "img")).2.2.2.1 (by decide) (by decide) (by decide)

/-! ### Theorem for C5 -/

/-- C5: the membership toggle contract, for any relation table (`Favorite`
and `ShoppingCart` instantiate it with their own messages) and any recipe
that exists: adding when the `(user, recipe)` pair is already present fails
with the already-a-member 400 error and leaves the table unchanged;
otherwise the pair is inserted and the 201 response carries the short
summary `(id, name, image, cooking_time)` of the recipe.  Removing when no
membership row exists answers the not-found condition and leaves the table
unchanged; otherwise the row is deleted and the response is 204 with no
body. -/
theorem C5_relation_toggle_contract (recipes : List Foodgram.RecipeRow)
    (relation : List (Nat × Nat)) (adet rdet : String) (u pk : Nat)
    (r : Foodgram.RecipeRow)
    (hr : recipes.find? (fun r => r.id = pk) = some r) :
    ((u, pk) ∈ relation →
      Foodgram.addRecipeToRelation recipes relation adet u pk =
        (relation, .badRequest400 adet)) ∧
    ((u, pk) ∉ relation →
      Foodgram.addRecipeToRelation recipes relation adet u pk =
        (relation ++ [(u, pk)],
          .created201 ⟨r.id, r.name, r.image, r.cooking_time⟩)) ∧
    ((u, pk) ∉ relation →
      Foodgram.removeRecipeFromRelation relation rdet u pk =
        (relation, .notFound404 rdet)) ∧
    ((u, pk) ∈ relation →
      (Foodgram.removeRecipeFromRelation relation rdet u pk).2 =
        .noContent204 ∧
      (u, pk) ∉ (Foodgram.removeRecipeFromRelation relation rdet u pk).1) := by
  refine ⟨?_, ?_, ?_, ?_⟩
  · intro hmem
    have hany := (any_pair_eq relation u pk).mpr hmem
    simp [Foodgram.addRecipeToRelation, hr, hany]
  · intro hmem
    have hany : relation.any (fun p => p.1 == u && p.2 == pk) = false := by
      rw [Bool.eq_false_iff]
      intro h
      exact hmem ((any_pair_eq relation u pk).mp h)
    simp [Foodgram.addRecipeToRelation, hr, hany]
  · intro hmem
    have hany : relation.any (fun p => p.1 == u && p.2 == pk) = false := by
      rw [Bool.eq_false_iff]
      intro h
      exact hmem ((any_pair_eq relation u pk).mp h)
    simp [Foodgram.removeRecipeFromRelation, hany]
  · intro hmem
    have hany := (any_pair_eq relation u pk).mpr hmem
    refine ⟨by simp [Foodgram.removeRecipeFromRelation, hany], ?_⟩
    simp only [Foodgram.removeRecipeFromRelation, hany, if_true]
    intro hmem'
    have := (List.mem_filter.mp hmem').2
    simp at this

/-- Witness for C5 with recipe table `[(1, "r", some "i", 10)]`, user 5,
recipe 1: adding to the empty relation inserts the pair and returns the
short summary; removing from `[(5, 1)]` answers 204. -/
theorem C5_relation_toggle_contract_witness :
    Foodgram.addRecipeToRelation [⟨1, "r", some "i", 10⟩] [] "dup" 5 1 =
      ([(5, 1)], .created201 ⟨1, "r", some "i", 10⟩) ∧
    (Foodgram.removeRecipeFromRelation [(5, 1)] "missing" 5 1).2 =
      .noContent204 := by
  constructor
  · exact (C5_relation_toggle_contract [⟨1, "r", some "i", 10⟩] [] "dup"
      "missing" 5 1 ⟨1, "r", some "i", 10⟩ (by rfl)).2.1 (by decide)
  · exact ((C5_relation_toggle_contract [⟨1, "r", some "i", 10⟩] [(5, 1)]
      "dup" "missing" 5 1 ⟨1, "r", some "i", 10⟩ (by rfl)).2.2.2
      (by decide)).1

/-! ### Theorem for C7 -/

/-- C7: subscription management for any existing target author `a` and
subscriber `u`: subscribing to oneself fails with a 400 error and leaves
the state unchanged whether or not an edge exists; subscribing when the
follow edge already exists fails with the already-subscribed 400 error;
unsubscribing with no edge fails with the not-subscribed 400 error; and
unsubscribing with an existing edge deletes it and answers 204. -/
theorem C7_subscription_management (db : Foodgram.SubDb) (u a : Nat)
    (ha : a ∈ db.userIds) :
    (u = a → (Foodgram.subscribePost db u a).1 = db ∧
      ∃ d, (Foodgram.subscribePost db u a).2 = .badRequest400 d) ∧
    ((a, u) ∈ db.subscriptions →
      Foodgram.subscribePost db u a =
        (db, .badRequest400 "Вы уже подписаны.")) ∧
    ((a, u) ∉ db.subscriptions →
      Foodgram.subscribeDelete db u a =
        (db, .badRequest400 "Вы не подписаны.")) ∧
    ((a, u) ∈ db.subscriptions →
      (Foodgram.subscribeDelete db u a).2 = .noContent204 ∧
      (a, u) ∉ (Foodgram.subscribeDelete db u a).1.subscriptions) := by
  refine ⟨?_, ?_, ?_, ?_⟩
  · rintro rfl
    by_cases hmem : (u, u) ∈ db.subscriptions
    · have hany := (any_pair_eq db.subscriptions u u).mpr hmem
      exact ⟨by simp [Foodgram.subscribePost, ha, hany],
        "Вы уже подписаны.", by simp [Foodgram.subscribePost, ha, hany]⟩
    · have hany : db.subscriptions.any (fun e => e.1 == u && e.2 == u) =
          false := by
        rw [Bool.eq_false_iff]
        intro h
        exact hmem ((any_pair_eq db.subscriptions u u).mp h)
      exact ⟨by simp [Foodgram.subscribePost, ha, hany],
        "Вы не можете подписаться на себя!",
        by simp [Foodgram.subscribePost, ha, hany]⟩
  · intro hmem
    have hany := (any_pair_eq db.subscriptions a u).mpr hmem
    simp [Foodgram.subscribePost, ha, hany]
  · intro hmem
    have hany : db.subscriptions.any (fun e => e.1 == a && e.2 == u) =
        false := by
      rw [Bool.eq_false_iff]
      intro h
      exact hmem ((any_pair_eq db.subscriptions a u).mp h)
    simp [Foodgram.subscribeDelete, ha, hany]
  · intro hmem
    have hany := (any_pair_eq db.subscriptions a u).mpr hmem
    refine ⟨by simp [Foodgram.subscribeDelete, ha, hany], ?_⟩
    simp only [Foodgram.subscribeDelete, ha, if_true, hany]
    intro hmem'
    have := (List.mem_filter.mp hmem').2
    simp at this

/-- Witness for C7 with users `[1, 2]`: user 1 subscribing to
themselves fails with a 400 error; user 2 unsubscribing from author 1 with
the edge present answers 204. -/
theorem C7_subscription_management_witness :
    ((Foodgram.subscribePost ⟨[1, 2], []⟩ 1 1).1 = ⟨[1, 2], []⟩ ∧
      ∃ d, (Foodgram.subscribePost ⟨[1, 2], []⟩ 1 1).2 =
        .badRequest400 d) ∧
    (Foodgram.subscribeDelete ⟨[1, 2], [(1, 2)]⟩ 2 1).2 =
      .noContent204 := by
  constructor
  · exact (C7_subscription_management ⟨[1, 2], []⟩ 1 1 (by decide)).1 rfl
  · exact ((C7_subscription_management ⟨[1, 2], [(1, 2)]⟩ 2 1
      (by decide)).2.2.2 (by decide)).1

/-! ### Theorem for C8 -/

/-- C8: registration email validation scans every existing user's email and
fails with the similarity error exactly when some existing email reaches a
`SequenceMatcher` ratio of 0.8 against the candidate, both case-folded;
otherwise it returns the candidate unchanged. -/
theorem C8_email_similarity_guard (emails : List String) (v : String) :
    (Foodgram.validateEmail emails v =
        .error "Пользователь с похожей почтой уже зарегистрирован." ↔
      ∃ e ∈ emails, Foodgram.ratio (Foodgram.strLower v) (Foodgram.strLower e) ≥ (8 : ℚ) / 10) ∧
    (Foodgram.validateEmail emails v = .ok v ↔
      ∀ e ∈ emails, Foodgram.ratio (Foodgram.strLower v) (Foodgram.strLower e) < (8 : ℚ) / 10) := by
  simp only [Foodgram.validateEmail]
  split_ifs with h
  · simp only [List.any_eq_true, decide_eq_true_eq] at h
    refine ⟨iff_of_true rfl h, iff_of_false (by intro hc; cases hc) ?_⟩
    rcases h with ⟨e, he, hr⟩
    intro hall
    exact absurd (hall e he) (not_lt.mpr hr)
  · simp only [List.any_eq_true, decide_eq_true_eq] at h
    push_neg at h
    exact ⟨iff_of_false (by intro hc; cases hc)
      (fun ⟨e, he, hr⟩ => absurd hr (not_le.mpr (h e he))),
      iff_of_true rfl h⟩

set_option maxRecDepth 100000 in
/-- Witness for C8 on the spec's example: registering
`alice@example.com` while `alise@example.com` exists is rejected (their
matching blocks total 16 of 17 characters, a ratio of 32/34 ≥ 0.8). -/
theorem C8_email_similarity_guard_witness :
    Foodgram.validateEmail ["alise@example.com"] "alice@example.com" =
      .error "Пользователь с похожей почтой уже зарегистрирован." := by
  have hm : Foodgram.matchTotal (Foodgram.strLower "alice@example.com").data
      (Foodgram.strLower "alise@example.com").data 35 0 17 0 17 = 16 := by
    decide
  have hlen1 : (Foodgram.strLower "alice@example.com").data.length = 17 := by
    decide
  have hlen2 : (Foodgram.strLower "alise@example.com").data.length = 17 := by
    decide
  have hr : Foodgram.ratio (Foodgram.strLower "alice@example.com")
      (Foodgram.strLower "alise@example.com") ≥ (8 : ℚ) / 10 := by
    simp only [Foodgram.ratio, hlen1, hlen2]
    norm_num [hm]
  exact (C8_email_similarity_guard ["alise@example.com"]
    "alice@example.com").1.mpr ⟨"alise@example.com", by decide, hr⟩

/-! ### Theorem for C9 -/

/-- C9: the login endpoint does not reveal account existence: for the same
email and password, a state with no user carrying the email and a state
where the unique user carrying it fails the password check produce the very
same response — a 400 with an identical detail message. -/
theorem C9_login_does_not_reveal_accounts (s1 s2 : List Foodgram.AuthUser)
    (e p : String) (u : Foodgram.AuthUser)
    (h1 : s1.filter (fun v => v.email = e) = [])
    (h2 : s2.filter (fun v => v.email = e) = [u])
    (h3 : s2.find? (fun v => v.username = u.username) = some u)
    (h4 : Foodgram.checkPassword u p = false) :
    Foodgram.obtainAuthToken s1 (some e) (some p) =
      Foodgram.obtainAuthToken s2 (some e) (some p) ∧
    ∃ d, Foodgram.obtainAuthToken s1 (some e) (some p) =
      .badRequest400 d := by
  by_cases he : e = ""
  · refine ⟨by simp [Foodgram.obtainAuthToken, Foodgram.isBlank, he],
      "Пожалуйста, введите email.",
      by simp [Foodgram.obtainAuthToken, Foodgram.isBlank, he]⟩
  · by_cases hp : p = ""
    · refine ⟨by simp [Foodgram.obtainAuthToken, Foodgram.isBlank, he, hp],
        "Пожалуйста, введите пароль.",
        by simp [Foodgram.obtainAuthToken, Foodgram.isBlank, he, hp]⟩
    · have hbe : (e == "") = false := by simp [he]
      have hbp : (p == "") = false := by simp [hp]
      have r1 : Foodgram.obtainAuthToken s1 (some e) (some p) =
          .badRequest400 "Неверный email или пароль." := by
        simp only [Foodgram.obtainAuthToken, Foodgram.isBlank, hbe, hbp,
          Bool.false_eq_true, if_false, Option.getD_some, h1]
      have r2 : Foodgram.obtainAuthToken s2 (some e) (some p) =
          .badRequest400 "Неверный email или пароль." := by
        simp only [Foodgram.obtainAuthToken, Foodgram.isBlank, hbe, hbp,
          Bool.false_eq_true, if_false, Option.getD_some, h2]
        simp only [Foodgram.authenticateUser, h3, h4, Bool.false_and,
          Bool.false_eq_true, if_false]
      exact ⟨r1.trans r2.symm, _, r1⟩

/-- Witness for C9: logging in as `b@x.co` with a wrong password against an
empty user table and against a table holding that account produce the same
400 response. -/
theorem C9_login_does_not_reveal_accounts_witness :
    Foodgram.obtainAuthToken [] (some "b@x.co") (some "wrong") =
      Foodgram.obtainAuthToken [⟨1, "bob", "b@x.co", "secret", true⟩]
        (some "b@x.co") (some "wrong") ∧
    ∃ d, Foodgram.obtainAuthToken [] (some "b@x.co") (some "wrong") =
      .badRequest400 d :=
  C9_login_does_not_reveal_accounts [] [⟨1, "bob", "b@x.co", "secret", true⟩]
    "b@x.co" "wrong" ⟨1, "bob", "b@x.co", "secret", true⟩
    (by rfl) (by rfl) (by rfl) (by rfl)

/-! ### Theorem for C10 -/

/-- C10: for a user acting on their own account, the avatar DELETE action
answers 204 whether or not an avatar is set, leaves no avatar behind, and a
second application returns the same state and the same 204 response as the
first: the operation is idempotent and never fails for absence. -/
theorem C10_avatar_delete_idempotent (u : Foodgram.AvatarUser) :
    (Foodgram.avatarDelete u u).2 = .noContent204 "Аватар удалён." ∧
    (Foodgram.avatarDelete u u).1.avatar = none ∧
    Foodgram.avatarDelete (Foodgram.avatarDelete u u).1
        (Foodgram.avatarDelete u u).1 =
      ((Foodgram.avatarDelete u u).1, .noContent204 "Аватар удалён.") := by
  obtain ⟨i, av⟩ := u
  cases av <;> simp [Foodgram.avatarDelete]
